import Mathlib

/-! Shallow embedding of the chat request pipeline of this repository.

Three source files are embedded:

* namespace `MainPy` — src/main.py, the root FastAPI service;
* namespace `Emerald` — src/emerald_service/main.py, the resilient variant;
* namespace `EmeraldAgent` — src/emerald_agent/agent.py, the Strands agent server.

External collaborators (the Bedrock runtime, the DynamoDB table, the metrics
Lambda, the wall clock, the uuid generator) are modelled as explicit
environment records; each fallible collaborator call is an `Except` value
supplied by the environment.  Python exceptions are the `Exn` type; a handler
that lets an exception escape is an `Except.error` result (FastAPI turns an
escaped exception into a transport-level 500).  Wall-clock readings are
integers; uuid generation draws from a `Nat` supply, and distinct supplies
model distinct draws of the generator. -/

/-- Python exception values relevant to the embedded code. -/
inductive Exn where
  | clientError (msg : String)
  | attributeError (msg : String)
  | httpException (code : Nat) (detail : String)
  | generalError (msg : String)
deriving DecidableEq

/-- The message carried by an exception, as Python str of the exception. -/
def Exn.message : Exn → String
  | .clientError m => m
  | .attributeError m => m
  | .httpException _ d => d
  | .generalError m => m

/-- Python truthiness of an optional string: None and the empty string are falsy. -/
def strTruthy : Option String → Bool
  | none => false
  | some s => s != ""

/-- One draw of str applied to uuid.uuid4, modelled on a `Nat` supply;
distinct supplies are distinct draws of the generator. -/
def uuid4 (supply : Nat) : String := "uuid-" ++ toString supply

/-- The inbound JSON body of POST /chat, before pydantic validation fills
in the default for a missing session_id. -/
structure ChatRequestBody where
  session_id : Option String
  message : String
  agent_id : String
deriving DecidableEq

/-- The validated pydantic ChatRequest: fields session_id, message, agent_id
(identical field lists in src/main.py and src/emerald_service/main.py). -/
structure ChatRequest where
  session_id : String
  message : String
  agent_id : String
deriving DecidableEq

/-- Attribute lookup on the pydantic model: only the three declared fields
exist, and any other attribute name raises AttributeError. -/
def ChatRequest.getattr (r : ChatRequest) (a : String) : Except Exn String :=
  if a = "session_id" then .ok r.session_id
  else if a = "message" then .ok r.message
  else if a = "agent_id" then .ok r.agent_id
  else .error (.attributeError ("ChatRequest object has no attribute " ++ a))

namespace MainPy

/-- src/main.py line 32: the default for session_id is str of uuid.uuid4
evaluated once, when the class body runs at import time. -/
def defaultSessionId : String := uuid4 0

/-- Pydantic validation of the body in src/main.py.  The per-request uuid
supply is available but unused: the default was computed once at class
definition, so every body that omits session_id gets `defaultSessionId`. -/
def parseChatRequest (_supply : Nat) (b : ChatRequestBody) : ChatRequest :=
  { session_id := b.session_id.getD defaultSessionId
    message := b.message
    agent_id := b.agent_id }

/-- Environment of one request to src/main.py: collaborator outcomes and
clock readings.  `bedrockResult` abstracts invoke_agent_runtime together
with the decoding of its payload (lines 64 to 103): an ok value is the
decoded text, an error is the exception the call raised. -/
structure Env where
  bedrockResult : Except Exn String
  putResult : Except Exn Unit
  region : String
  t0 : Int
  msNow : Int
  unixNow : Int
  tEnd : Int

/-- The DynamoDB item built at src/main.py lines 114 to 122 (no Status and
no Error attribute in this variant). -/
structure HistoryItem where
  PK : String
  SK : String
  UserMessage : String
  AgentResponse : String
  Region : String
  AgentID : String
  Timestamp : Int
deriving DecidableEq

/-- The response model of src/main.py (no status and no error field). -/
structure ChatResponse where
  session_id : String
  response : String
  processing_time : Int
  region : String
deriving DecidableEq

/-- A completed run of the handler: the returned response and the items
actually persisted. -/
structure Run where
  response : ChatResponse
  storedItems : List HistoryItem
deriving DecidableEq

/-- Body of the step-1 try block of src/main.py: line 57 first evaluates an
f-string that reads request.agent_alias_id, an attribute ChatRequest does
not declare, then the Bedrock call and decoding would follow. -/
def agentTry (env : Env) (req : ChatRequest) : Except Exn String := do
  let _alias ← req.getattr "agent_alias_id"
  env.bedrockResult

/-- The POST /chat handler of src/main.py.  Step 1 catches only ClientError
(substituting the fallback text of line 110); any other exception escapes.
Step 2 persists the item and on ClientError raises HTTPException 500
(line 127).  An `Except.error` result is an exception escaping to FastAPI. -/
def chat_endpoint (env : Env) (req : ChatRequest) : Except Exn Run := do
  let agentText ← (match agentTry env req with
    | .ok t => Except.ok t
    | .error (.clientError m) => Except.ok ("Error invoking agent: " ++ m)
    | .error e => Except.error e)
  let item : HistoryItem :=
    { PK := "SESSION#" ++ req.session_id
      SK := "MSG#" ++ toString env.msNow
      UserMessage := req.message
      AgentResponse := agentText
      Region := env.region
      AgentID := req.agent_id
      Timestamp := env.unixNow }
  let stored ← (match env.putResult with
    | .ok _ => Except.ok [item]
    | .error (.clientError _) => Except.error (.httpException 500 "Database write failed")
    | .error e => Except.error e)
  Except.ok
    { response :=
        { session_id := req.session_id
          response := agentText
          processing_time := env.tEnd - env.t0
          region := env.region }
      storedItems := stored }

/-- Number of ChatResponses a run of the handler hands to the caller:
one on a normal return, zero when an exception escapes. -/
def responseCount (x : Except Exn Run) : Nat :=
  match x with
  | .ok _ => 1
  | .error _ => 0

/-- Items persisted by a run of the handler (none when it raised before
or during the write). -/
def storedOf (x : Except Exn Run) : List HistoryItem :=
  match x with
  | .ok r => r.storedItems
  | .error _ => []

/-- A sample environment in which every collaborator succeeds. -/
def happyEnv : Env :=
  { bedrockResult := Except.ok "hello from the agent"
    putResult := Except.ok ()
    region := "us-east-1"
    t0 := 100
    msNow := 100500
    unixNow := 100
    tEnd := 101 }

end MainPy

/-- Every request to the src/main.py handler raises: line 57 reads the
undefined attribute agent_alias_id, the AttributeError is not a ClientError,
so it escapes the step-1 handler and the whole endpoint. -/
theorem mainpy_chat_always_raises (env : MainPy.Env) (req : ChatRequest) :
    MainPy.chat_endpoint env req =
      Except.error (Exn.attributeError "ChatRequest object has no attribute agent_alias_id") := by
  rfl

namespace Emerald

/-- Pydantic validation of the body in src/emerald_service/main.py: the
default for session_id uses a default_factory, so a fresh uuid is drawn
from the supply on every call that omits session_id. -/
def parseChatRequest (supply : Nat) (b : ChatRequestBody) : ChatRequest :=
  { session_id := b.session_id.getD (uuid4 supply)
    message := b.message
    agent_id := b.agent_id }

/-- Environment of one request to src/emerald_service/main.py.
`tableConfigured` is the truthiness of the module-level `table` handle,
`lambdaConfigured` that of `lambda_client`; `metricsLambdaName` is the
METRICS_LAMBDA_NAME environment variable.  `bedrockInvoke` is the behaviour
the agent client would have; the invocation block (lines 76 to 152) is
commented out in the source, so the handler never consults it.  Clock
readings: `t0` at entry, `msNow` the millisecond reading used in the sort
key, `unixNowH` the unix reading stored in the item, `tMid` and `unixNowM`
the readings taken while building the metric event, `tEnd` at return. -/
structure Env where
  tableConfigured : Bool
  putResult : Except Exn Unit
  lambdaConfigured : Bool
  metricsLambdaName : Option String
  invokeResult : Except Exn Unit
  bedrockInvoke : Except Exn String
  region : String
  t0 : Int
  msNow : Int
  unixNowH : Int
  tMid : Int
  unixNowM : Int
  tEnd : Int

/-- The response model of src/emerald_service/main.py, with status and an
optional error field. -/
structure ChatResponse where
  session_id : String
  response : String
  processing_time : Int
  region : String
  status : String
  error : Option String
deriving DecidableEq

/-- The DynamoDB item built at src/emerald_service/main.py lines 159 to 170:
the keys and attributes, a Status attribute, and an Error attribute added
only when error_msg is truthy. -/
structure HistoryItem where
  PK : String
  SK : String
  UserMessage : String
  AgentResponse : String
  Region : String
  AgentID : String
  Timestamp : Int
  Status : String
  Error : Option String
deriving DecidableEq

/-- The metric payload built at src/emerald_service/main.py lines 182 to 189. -/
structure MetricEvent where
  type : String
  session_id : String
  agent_id : String
  latency : Int
  status : String
  timestamp : Int
deriving DecidableEq

/-- Observable side effects of one run: items persisted, put calls made,
whether a history failure was logged, metric events handed to the Lambda,
invoke calls made, whether a metrics failure was logged. -/
structure Effects where
  storedItems : List HistoryItem
  putCalls : Nat
  historyErrorLogged : Bool
  submittedEvents : List MetricEvent
  invokeCalls : Nat
  metricsWarningLogged : Bool
deriving DecidableEq

/-- A completed run of the handler: the returned response and the effects. -/
structure Run where
  response : ChatResponse
  effects : Effects
deriving DecidableEq

/-- src/emerald_service/main.py line 153: the live code assigns this fixed
string instead of invoking the agent. -/
def stubAgentText : String := "I\x27m an ai agent, not a doctor."

/-- The history item as built by lines 159 to 170, from the request, the
agent text, the current status and error message, and the clock readings.
The Error attribute is added only when error_msg is truthy. -/
def buildItem (env : Env) (req : ChatRequest) (text stat : String)
    (err : Option String) : HistoryItem :=
  { PK := "SESSION#" ++ req.session_id
    SK := "MSG#" ++ toString env.msNow
    UserMessage := req.message
    AgentResponse := text
    Region := env.region
    AgentID := req.agent_id
    Timestamp := env.unixNowH
    Status := stat
    Error := if strTruthy err then err else none }

/-- Step 2 of the handler (lines 157 to 175): when `table` is truthy, build
the item and attempt put_item; a failure is logged and swallowed.  Returns
the persisted items, the number of put calls, and whether a failure was
logged. -/
def historyStep (env : Env) (req : ChatRequest) (text stat : String)
    (err : Option String) : List HistoryItem × Nat × Bool :=
  if env.tableConfigured then
    match env.putResult with
    | .ok _ => ([buildItem env req text stat err], 1, false)
    | .error _ => ([], 1, true)
  else ([], 0, false)

/-- The metric event of lines 182 to 189. -/
def metricEvent (env : Env) (req : ChatRequest) (stat : String) : MetricEvent :=
  { type := "chat_metric"
    session_id := req.session_id
    agent_id := req.agent_id
    latency := env.tMid - env.t0
    status := stat
    timestamp := env.unixNowM }

/-- Step 3 of the handler (lines 180 to 197): when `lambda_client` and
METRICS_LAMBDA_NAME are both truthy, build the event and invoke the Lambda
fire-and-forget; a failure of the invoke call itself is logged as a warning
and swallowed.  Otherwise the step is skipped with no log. -/
def metricsStep (env : Env) (req : ChatRequest) (stat : String) :
    List MetricEvent × Nat × Bool :=
  if env.lambdaConfigured && strTruthy env.metricsLambdaName then
    match env.invokeResult with
    | .ok _ => ([metricEvent env req stat], 1, false)
    | .error _ => ([], 1, true)
  else ([], 0, false)

/-- Result of the outer try block (lines 76 to 197): the agent text, status
and error message as left by step 1, and the effects of steps 2 and 3. -/
structure BodyOut where
  text : String
  stat : String
  err : Option String
  effects : Effects

/-- The outer try block of the handler.  Step 1 is the commented-out agent
invocation: the live code assigns the fixed stub text and leaves
status success and error None untouched.  Steps 2 and 3 guard every
collaborator call individually, so the block raises nothing. -/
def tryBlock (env : Env) (req : ChatRequest) : Except Exn BodyOut :=
  let text := stubAgentText
  let stat := "success"
  let err : Option String := none
  let h := historyStep env req text stat err
  let m := metricsStep env req stat
  Except.ok
    { text := text
      stat := stat
      err := err
      effects :=
        { storedItems := h.1
          putCalls := h.2.1
          historyErrorLogged := h.2.2
          submittedEvents := m.1
          invokeCalls := m.2.1
          metricsWarningLogged := m.2.2 } }

/-- The POST /chat handler of src/emerald_service/main.py.  The outer
except block (lines 199 to 204) would flip status to error and substitute
the critical-error text; it is unreachable because `tryBlock` never raises.
The response (lines 209 to 216) is always returned. -/
def chat_endpoint (env : Env) (req : ChatRequest) : Run :=
  match tryBlock env req with
  | .ok b =>
    { response :=
        { session_id := req.session_id
          response := b.text
          processing_time := env.tEnd - env.t0
          region := env.region
          status := b.stat
          error := b.err }
      effects := b.effects }
  | .error e =>
    { response :=
        { session_id := req.session_id
          response := "Critical Internal Error"
          processing_time := env.tEnd - env.t0
          region := env.region
          status := "error"
          error := some e.message }
      effects :=
        { storedItems := []
          putCalls := 0
          historyErrorLogged := false
          submittedEvents := []
          invokeCalls := 0
          metricsWarningLogged := false } }

/-- A sample environment in which every collaborator is configured and
succeeds. -/
def happyEnv : Env :=
  { tableConfigured := true
    putResult := Except.ok ()
    lambdaConfigured := true
    metricsLambdaName := some "emerald-metrics"
    invokeResult := Except.ok ()
    bedrockInvoke := Except.ok "hello from the agent"
    region := "us-east-1"
    t0 := 200
    msNow := 200500
    unixNowH := 200
    tMid := 201
    unixNowM := 201
    tEnd := 202 }

end Emerald

namespace EmeraldAgent

/-- The request model of src/emerald_agent/agent.py. -/
structure InvocationRequest where
  prompt : String
deriving DecidableEq

/-- The response model of src/emerald_agent/agent.py. -/
structure InvocationResponse where
  output : String
deriving DecidableEq

/-- Environment of one request to the agent server: `agentCall` is the
outcome of constructing the Agent and calling it on the prompt, already
rendered through str; an error is any exception either step raised. -/
structure Env where
  agentCall : Except Exn String

/-- Body of the try block of invoke_agent (lines 20 to 23): construct the
Agent, call it on the prompt, wrap the str of the output. -/
def agentAttempt (env : Env) : Except Exn InvocationResponse := do
  let out ← env.agentCall
  Except.ok { output := out }

/-- The POST /invocations handler of src/emerald_agent/agent.py: on any
exception from the try block, log and return the prompt echoed back
(lines 24 to 26).  An `Except.error` result would be an exception escaping
to FastAPI; the handler never produces one. -/
def invoke_agent (env : Env) (req : InvocationRequest) :
    Except Exn InvocationResponse :=
  match agentAttempt env with
  | .ok r => .ok r
  | .error _ => .ok { output := req.prompt }

end EmeraldAgent

/-- Helper: the history step persists at most one item. -/
theorem emerald_historyStep_len (env : Emerald.Env) (req : ChatRequest)
    (t s : String) (e : Option String) :
    (Emerald.historyStep env req t s e).1.length ≤ 1 := by
  unfold Emerald.historyStep
  split
  · split <;> simp
  · simp

/-- Helper: the metrics step submits at most one event. -/
theorem emerald_metricsStep_len (env : Emerald.Env) (req : ChatRequest)
    (s : String) :
    (Emerald.metricsStep env req s).1.length ≤ 1 := by
  unfold Emerald.metricsStep
  split
  · split <;> simp
  · simp

/-- Claim C1, counterexample.  The claim quantifies over the chat handlers of
src/main.py and src/emerald_service/main.py.  First conjunct: the src/main.py
handler lets an AttributeError escape on a schema-valid request even though
every collaborator succeeds (line 57 reads the undefined attribute
agent_alias_id), so an exception does propagate to the HTTP layer.  Second
conjunct: in src/emerald_service/main.py an internal persistence failure
yields a response whose status is success, not error. -/
theorem c1_counterexample :
    MainPy.chat_endpoint MainPy.happyEnv
        { session_id := "s1", message := "hi", agent_id := "arn-a" }
      = Except.error (Exn.attributeError "ChatRequest object has no attribute agent_alias_id")
    ∧ (Emerald.chat_endpoint
        { Emerald.happyEnv with putResult := Except.error (Exn.clientError "table down") }
        { session_id := "s1", message := "hi", agent_id := "arn-a" }).response.status
      = "success" :=
  ⟨rfl, rfl⟩

/-- Claim C1, amended: for every schema-valid ChatRequest, the
src/emerald_service/main.py chat handler never fails outward.  Whatever the
collaborator outcomes, the outer try block returns normally and the handler
returns a fully populated ChatResponse whose status reflects the agent step
(always success in the live code) with no error; persistence and metrics
failures never surface. -/
theorem c1_emerald_never_fails_outward (env : Emerald.Env) (req : ChatRequest) :
    (∃ b, Emerald.tryBlock env req = Except.ok b)
    ∧ (Emerald.chat_endpoint env req).response.session_id = req.session_id
    ∧ (Emerald.chat_endpoint env req).response.response = Emerald.stubAgentText
    ∧ (Emerald.chat_endpoint env req).response.processing_time = env.tEnd - env.t0
    ∧ (Emerald.chat_endpoint env req).response.region = env.region
    ∧ (Emerald.chat_endpoint env req).response.status = "success"
    ∧ (Emerald.chat_endpoint env req).response.error = none :=
  ⟨⟨_, rfl⟩, rfl, rfl, rfl, rfl, rfl, rfl⟩

/-- Claim C2: when the agent step succeeded (in the live
src/emerald_service/main.py it always does), a failure of the history-store
write is invisible to the caller: the response is identical to the one
returned when the write succeeds, its status is success, the failure is
logged, and the pipeline continues into the metrics step unchanged. -/
theorem c2_persistence_failure_invisible (env : Emerald.Env) (req : ChatRequest)
    (e : Exn) (h : env.tableConfigured = true) :
    (Emerald.chat_endpoint { env with putResult := Except.error e } req).response
      = (Emerald.chat_endpoint { env with putResult := Except.ok () } req).response
    ∧ (Emerald.chat_endpoint { env with putResult := Except.error e } req).response.status
      = "success"
    ∧ (Emerald.chat_endpoint { env with putResult := Except.error e } req).effects.historyErrorLogged
      = true
    ∧ (Emerald.chat_endpoint { env with putResult := Except.error e } req).effects.invokeCalls
      = (Emerald.chat_endpoint { env with putResult := Except.ok () } req).effects.invokeCalls := by
  refine ⟨rfl, rfl, ?_, rfl⟩
  simp [Emerald.chat_endpoint, Emerald.tryBlock, Emerald.historyStep, h]

/-- Claim C2, witness at a concrete request and environment. -/
theorem c2_persistence_failure_invisible_witness :
    (Emerald.chat_endpoint { Emerald.happyEnv with putResult := Except.error (Exn.clientError "down") }
        { session_id := "s2", message := "m2", agent_id := "a2" }).response
      = (Emerald.chat_endpoint { Emerald.happyEnv with putResult := Except.ok () }
        { session_id := "s2", message := "m2", agent_id := "a2" }).response
    ∧ (Emerald.chat_endpoint { Emerald.happyEnv with putResult := Except.error (Exn.clientError "down") }
        { session_id := "s2", message := "m2", agent_id := "a2" }).response.status
      = "success"
    ∧ (Emerald.chat_endpoint { Emerald.happyEnv with putResult := Except.error (Exn.clientError "down") }
        { session_id := "s2", message := "m2", agent_id := "a2" }).effects.historyErrorLogged
      = true
    ∧ (Emerald.chat_endpoint { Emerald.happyEnv with putResult := Except.error (Exn.clientError "down") }
        { session_id := "s2", message := "m2", agent_id := "a2" }).effects.invokeCalls
      = (Emerald.chat_endpoint { Emerald.happyEnv with putResult := Except.ok () }
        { session_id := "s2", message := "m2", agent_id := "a2" }).effects.invokeCalls :=
  c2_persistence_failure_invisible Emerald.happyEnv
    { session_id := "s2", message := "m2", agent_id := "a2" } (Exn.clientError "down") rfl

/-- Claim C3, counterexample: a ChatRequest accepted by the src/main.py
handler yields zero ChatResponses, not exactly one, even when every
collaborator succeeds, because the handler raises before returning. -/
theorem c3_counterexample :
    MainPy.responseCount (MainPy.chat_endpoint MainPy.happyEnv
      { session_id := "s3", message := "hello", agent_id := "arn-b" }) = 0 :=
  rfl

/-- Claim C3, amended: every ChatRequest accepted by the
src/emerald_service/main.py handler yields exactly one ChatResponse (the
outer block returns normally for every environment), at most one
HistoryRecord and at most one MetricEvent, and failures of the persistence
and metrics collaborators never change or prevent the response. -/
theorem c3_emerald_exactly_one_response (env : Emerald.Env) (req : ChatRequest) :
    (∃ b, Emerald.tryBlock env req = Except.ok b)
    ∧ (Emerald.chat_endpoint env req).effects.storedItems.length ≤ 1
    ∧ (Emerald.chat_endpoint env req).effects.submittedEvents.length ≤ 1
    ∧ (Emerald.chat_endpoint env req).response
      = (Emerald.chat_endpoint
          { env with putResult := Except.ok (), invokeResult := Except.ok () } req).response :=
  ⟨⟨_, rfl⟩, emerald_historyStep_len env req Emerald.stubAgentText "success" none,
    emerald_metricsStep_len env req "success", rfl⟩

/-- Claim C4: the spec requires a fresh unique session id per call when the
body omits session_id.  src/emerald_service/main.py satisfies this through
a default_factory, but src/main.py line 32 evaluates the default once at
class definition, so two distinct requests that omit session_id receive the
same identifier.  First conjunct: the two src/main.py ids coincide although
the uuid supplies differ.  Second and third: the emerald ids are distinct
and non-empty for the same two supplies. -/
theorem c4_mainpy_shared_default_session_id :
    (MainPy.parseChatRequest 5 { session_id := none, message := "first", agent_id := "a1" }).session_id
      = (MainPy.parseChatRequest 9 { session_id := none, message := "second", agent_id := "a2" }).session_id
    ∧ (Emerald.parseChatRequest 5 { session_id := none, message := "first", agent_id := "a1" }).session_id
      ≠ (Emerald.parseChatRequest 9 { session_id := none, message := "second", agent_id := "a2" }).session_id
    ∧ (Emerald.parseChatRequest 5 { session_id := none, message := "first", agent_id := "a1" }).session_id
      ≠ "" := by
  refine ⟨rfl, ?_, ?_⟩ <;> decide

/-- Claim C5, counterexample: even when the agent collaborator would return
the fixed text Simulated Agent Response, the handler does not return it —
the invocation block is commented out and line 153 hard-codes a different
string into the response field. -/
theorem c5_counterexample :
    (Emerald.chat_endpoint
        { Emerald.happyEnv with bedrockInvoke := Except.ok "Simulated Agent Response" }
        { session_id := "s5", message := "hi", agent_id := "X" }).response.response
      ≠ "Simulated Agent Response" := by
  decide

/-- Claim C5, amended: for any request (in particular message hi with
agent_id X) and any agent-collaborator behaviour, the handler returns the
hard-coded stub text of line 153 as the response field, with status success
and a non-negative processing time (the wall clock being nondecreasing). -/
theorem c5_stub_response (env : Emerald.Env) (req : ChatRequest)
    (h : env.t0 ≤ env.tEnd) :
    (Emerald.chat_endpoint env req).response.response = Emerald.stubAgentText
    ∧ (Emerald.chat_endpoint env req).response.status = "success"
    ∧ 0 ≤ (Emerald.chat_endpoint env req).response.processing_time := by
  refine ⟨rfl, rfl, ?_⟩
  show (0 : Int) ≤ env.tEnd - env.t0
  omega

/-- Claim C5, witness at the concrete request of the claim. -/
theorem c5_stub_response_witness :
    (Emerald.chat_endpoint Emerald.happyEnv
        { session_id := "s5w", message := "hi", agent_id := "X" }).response.response
      = Emerald.stubAgentText
    ∧ (Emerald.chat_endpoint Emerald.happyEnv
        { session_id := "s5w", message := "hi", agent_id := "X" }).response.status
      = "success"
    ∧ 0 ≤ (Emerald.chat_endpoint Emerald.happyEnv
        { session_id := "s5w", message := "hi", agent_id := "X" }).response.processing_time :=
  c5_stub_response Emerald.happyEnv
    { session_id := "s5w", message := "hi", agent_id := "X" } (by decide)

/-- Claim C6: evaluation of the live code at the failing input of the claim.
With the agent client set to raise a client-style error carrying the message
throttled, the handler returns status success, no error, and the hard-coded
stub text — not the status error, error throttled, and error text the claim
(and the commented-out invocation block at lines 137 to 141) prescribe,
because the live code never invokes the agent client. -/
theorem c6_throttled_ignored :
    (Emerald.chat_endpoint
        { Emerald.happyEnv with bedrockInvoke := Except.error (Exn.clientError "throttled") }
        { session_id := "s6", message := "hi", agent_id := "X" }).response.status
      = "success"
    ∧ (Emerald.chat_endpoint
        { Emerald.happyEnv with bedrockInvoke := Except.error (Exn.clientError "throttled") }
        { session_id := "s6", message := "hi", agent_id := "X" }).response.error
      = none
    ∧ (Emerald.chat_endpoint
        { Emerald.happyEnv with bedrockInvoke := Except.error (Exn.clientError "throttled") }
        { session_id := "s6", message := "hi", agent_id := "X" }).response.response
      = Emerald.stubAgentText :=
  ⟨rfl, rfl, rfl⟩

/-- Claim C7: every history record persisted by the
src/emerald_service/main.py handler is keyed by the pair of session id and
millisecond timestamp (PK and SK), and carries the user message, the agent
response text, the region, the agent id, the unix timestamp, the status of
the run, and an Error attribute exactly when the status is error.
(The src/main.py handler persists nothing, as it always raises first.) -/
theorem c7_history_record_shape (env : Emerald.Env) (req : ChatRequest)
    (item : Emerald.HistoryItem)
    (hmem : item ∈ (Emerald.chat_endpoint env req).effects.storedItems) :
    item.PK = "SESSION#" ++ req.session_id
    ∧ item.SK = "MSG#" ++ toString env.msNow
    ∧ item.UserMessage = req.message
    ∧ item.AgentResponse = (Emerald.chat_endpoint env req).response.response
    ∧ item.Region = env.region
    ∧ item.AgentID = req.agent_id
    ∧ item.Timestamp = env.unixNowH
    ∧ item.Status = (Emerald.chat_endpoint env req).response.status
    ∧ (item.Error.isSome ↔ item.Status = "error") := by
  have hstored : (Emerald.chat_endpoint env req).effects.storedItems
      = (Emerald.historyStep env req Emerald.stubAgentText "success" none).1 := rfl
  rw [hstored] at hmem
  unfold Emerald.historyStep at hmem
  split at hmem
  · split at hmem
    · simp only [List.mem_singleton] at hmem
      subst hmem
      refine ⟨rfl, rfl, rfl, rfl, rfl, rfl, rfl, rfl, ?_⟩
      simp [Emerald.buildItem, strTruthy]
    · simp at hmem
  · simp at hmem

/-- Claim C7, witness: the record persisted in the all-collaborators-succeed
environment has the claimed primary key. -/
theorem c7_history_record_shape_witness :
    (Emerald.buildItem Emerald.happyEnv
        { session_id := "s7", message := "m7", agent_id := "a7" }
        Emerald.stubAgentText "success" none).PK
      = "SESSION#" ++ "s7" :=
  (c7_history_record_shape Emerald.happyEnv
      { session_id := "s7", message := "m7", agent_id := "a7" }
      (Emerald.buildItem Emerald.happyEnv
        { session_id := "s7", message := "m7", agent_id := "a7" }
        Emerald.stubAgentText "success" none)
      (by decide)).1

/-- Claim C8: when METRICS_LAMBDA_NAME is not configured, the metrics Lambda
is never invoked, no event is submitted, and no metrics failure is logged:
the step is skipped silently. -/
theorem c8_no_metrics_destination_skips (env : Emerald.Env) (req : ChatRequest)
    (h : env.metricsLambdaName = none) :
    (Emerald.chat_endpoint env req).effects.invokeCalls = 0
    ∧ (Emerald.chat_endpoint env req).effects.submittedEvents = []
    ∧ (Emerald.chat_endpoint env req).effects.metricsWarningLogged = false := by
  refine ⟨?_, ?_, ?_⟩ <;>
    simp [Emerald.chat_endpoint, Emerald.tryBlock, Emerald.metricsStep, strTruthy, h]

/-- Claim C8, witness at a concrete environment with no metrics destination. -/
theorem c8_no_metrics_destination_skips_witness :
    (Emerald.chat_endpoint { Emerald.happyEnv with metricsLambdaName := none }
        { session_id := "s8", message := "m8", agent_id := "a8" }).effects.invokeCalls = 0
    ∧ (Emerald.chat_endpoint { Emerald.happyEnv with metricsLambdaName := none }
        { session_id := "s8", message := "m8", agent_id := "a8" }).effects.submittedEvents = []
    ∧ (Emerald.chat_endpoint { Emerald.happyEnv with metricsLambdaName := none }
        { session_id := "s8", message := "m8", agent_id := "a8" }).effects.metricsWarningLogged
      = false :=
  c8_no_metrics_destination_skips { Emerald.happyEnv with metricsLambdaName := none }
    { session_id := "s8", message := "m8", agent_id := "a8" } rfl

/-- Claim C9: the agent server invocation handler is total — it always
returns an ok InvocationResponse (a 200) — and whenever the underlying agent
call fails, the returned output is the request prompt echoed back verbatim. -/
theorem c9_agent_total_echo (env : EmeraldAgent.Env)
    (req : EmeraldAgent.InvocationRequest) :
    (∃ r, EmeraldAgent.invoke_agent env req = Except.ok r)
    ∧ (∀ e, env.agentCall = Except.error e →
        EmeraldAgent.invoke_agent env req = Except.ok { output := req.prompt }) := by
  unfold EmeraldAgent.invoke_agent EmeraldAgent.agentAttempt
  cases h : env.agentCall with
  | ok o =>
    exact ⟨⟨{ output := o }, rfl⟩, fun e he => Except.noConfusion he⟩
  | error e0 =>
    exact ⟨⟨{ output := req.prompt }, rfl⟩, fun e he => rfl⟩

/-- Claim C9, witness: a failing agent call at a concrete prompt is echoed. -/
theorem c9_agent_total_echo_witness :
    EmeraldAgent.invoke_agent { agentCall := Except.error (Exn.generalError "model unavailable") }
        { prompt := "hello there" }
      = Except.ok { output := "hello there" } :=
  (c9_agent_total_echo { agentCall := Except.error (Exn.generalError "model unavailable") }
      { prompt := "hello there" }).2 (Exn.generalError "model unavailable") rfl

/-- Claim C10: every response of the src/emerald_service/main.py handler
satisfies the invariant that the error field is non-null exactly when the
status is error; in the live code the status is always success and the
error field always None, so both sides of the equivalence are false. -/
theorem c10_error_iff_status_error (env : Emerald.Env) (req : ChatRequest) :
    ((Emerald.chat_endpoint env req).response.error ≠ none
      ↔ (Emerald.chat_endpoint env req).response.status = "error")
    ∧ (Emerald.chat_endpoint env req).response.status = "success"
    ∧ (Emerald.chat_endpoint env req).response.error = none := by
  refine ⟨?_, rfl, rfl⟩
  rw [show (Emerald.chat_endpoint env req).response.error = none from rfl,
    show (Emerald.chat_endpoint env req).response.status = "success" from rfl]
  decide
